import Mathlib

/-!
Verification of the GridZer0 Discord bot (bot.py and the content handlers)
against its natural-language specification.  The Python source is shallowly
embedded: pure control flow becomes Lean functions, external effects
(Discord API calls, file conversion libraries, HTTP fetches) become oracle
parameters, and the mutable per-module state (processed-message sets,
view flags) becomes explicit state passing.
-/

namespace GridZero

/- ### Python string helpers

Python str.lower / str.endswith / os.path.splitext, modelled on the
character sequence of the string. -/

/-- Python str.lower (filename case folding used by every handler). -/
def pyLower (s : String) : String := String.mk (s.toList.map Char.toLower)

/-- Python str.endswith, as used on lowered filenames. -/
def pyEndsWith (s suffix : String) : Bool :=
  List.isSuffixOf suffix.toList s.toList

/-- Suffix of a character list starting at its last dot, if any. -/
def lastDotSuffix : List Char → Option (List Char)
  | [] => none
  | c :: cs =>
    match lastDotSuffix cs with
    | some suf => some suf
    | none => if c == '.' then some (c :: cs) else none

/-- Python os.path.splitext extension part, for a bare filename (no
directory separators): leading dots never start an extension. -/
def splitextExt (s : String) : String :=
  let cs := s.toList
  let lead := (cs.takeWhile (fun c => c == '.')).length
  match lastDotSuffix (cs.drop lead) with
  | some suf => String.mk suf
  | none => ""

/- ### Data model: messages, attachments, permissions -/

/-- One Discord attachment: filename, size in bytes, attachment id. -/
structure Attachment where
  filename : String
  size : Nat
  aid : Nat
deriving DecidableEq, Repr

/-- The channel permissions the handlers pre-check for the bot member. -/
structure Perms where
  sendMessages : Bool
  attachFiles : Bool
  createPublicThreads : Bool
  manageThreads : Bool
  manageMessages : Bool
deriving DecidableEq, Repr

/-- An incoming message event.  The regex matches on the text content
(YOUTUBE_REGEX, URL_REGEX) are modelled as precomputed booleans. -/
structure Message where
  mid : Nat
  authorIsSelf : Bool
  attachments : List Attachment
  hasYoutubeLink : Bool
  hasUrl : Bool
  channelId : Nat
  hasGuild : Bool
  perms : Perms
deriving DecidableEq, Repr

/-- IMAGE_EXTENSIONS from image_handler.py. -/
def IMAGE_EXTENSIONS : List String :=
  [".png", ".jpg", ".jpeg", ".gif", ".webp", ".bmp", ".tiff"]

/-- image_handler: splitext(filename.lower()) extension membership test. -/
def isImageAttachment (a : Attachment) : Bool :=
  IMAGE_EXTENSIONS.contains (splitextExt (pyLower a.filename))

/-- pdf_handler: att.filename.lower().endswith(".pdf"). -/
def isPdfAttachment (a : Attachment) : Bool :=
  pyEndsWith (pyLower a.filename) ".pdf"

/-- docx_handler: att.filename.lower().endswith(".docx"). -/
def isDocxAttachment (a : Attachment) : Bool :=
  pyEndsWith (pyLower a.filename) ".docx"

/-- mp4_handler VIDEO_REGEX: a case-insensitive .mov or .mp4 suffix. -/
def isVideoAttachment (a : Attachment) : Bool :=
  pyEndsWith (pyLower a.filename) ".mov" || pyEndsWith (pyLower a.filename) ".mp4"

/-- MAX_PDF_SIZE default: 8 MB. -/
def MAX_PDF_SIZE : Nat := 8 * 1024 * 1024

/-- docx size limit: 8 MB. -/
def MAX_DOCX_SIZE : Nat := 8 * 1024 * 1024

/-- mp4_handler MAX_FILE_SIZE_BYTES: 500 MB. -/
def MAX_FILE_SIZE_BYTES : Nat := 500 * 1024 * 1024

/- ### Dispatcher and handler entry points -/

/-- The content kinds a workflow can be started for. -/
inductive Kind
  | imageBatch | pdf | docx | mp4 | youtube | referral
deriving DecidableEq, Repr

/-- Outcome of one handler call: whether it reported the message handled,
which workflow (options view / referral processing) it started, and
whether it sent any message of its own to the channel. -/
structure HandlerRes where
  handled : Bool
  invoked : Option Kind
  sentMessage : Bool
deriving DecidableEq, Repr

/-- Missing-permission test of image_handler.handle_image_batch. -/
def missingPermsImage (p : Perms) : Bool :=
  !p.sendMessages || !p.attachFiles || !p.manageMessages

/-- Missing-permission test of pdf_handler.handle_pdf. -/
def missingPermsPdf (p : Perms) : Bool :=
  !p.sendMessages || !p.attachFiles || !p.createPublicThreads || !p.manageThreads

/-- Missing-permission test of docx_handler.handle_docx. -/
def missingPermsDocx (p : Perms) : Bool :=
  !p.sendMessages || !p.attachFiles

/-- image_handler.handle_image_batch: requires at least 2 image
attachments before doing anything; on missing permissions it warns and
returns False; otherwise it presents the options view. -/
def handle_image_batch (msg : Message) : HandlerRes :=
  if msg.attachments.isEmpty then ⟨false, none, false⟩
  else
    let imgs := msg.attachments.filter isImageAttachment
    if imgs.length < 2 then ⟨false, none, false⟩
    else if msg.hasGuild && missingPermsImage msg.perms then ⟨false, none, true⟩
    else ⟨true, some .imageBatch, true⟩

/-- pdf_handler.handle_pdf, with the module-level processed-message id set
passed in explicitly. -/
def handle_pdf (processedPdf : List Nat) (msg : Message) : HandlerRes :=
  if processedPdf.contains msg.mid then ⟨true, none, false⟩
  else if msg.attachments.isEmpty then ⟨false, none, false⟩
  else
    match msg.attachments.filter isPdfAttachment with
    | [] => ⟨false, none, false⟩
    | att :: _ =>
      if att.size > MAX_PDF_SIZE then ⟨true, none, true⟩
      else if msg.hasGuild && missingPermsPdf msg.perms then ⟨true, none, true⟩
      else ⟨true, some .pdf, true⟩

/-- docx_handler.handle_docx. -/
def handle_docx (msg : Message) : HandlerRes :=
  if msg.attachments.isEmpty then ⟨false, none, false⟩
  else
    match msg.attachments.filter isDocxAttachment with
    | [] => ⟨false, none, false⟩
    | att :: _ =>
      if att.size > MAX_DOCX_SIZE then ⟨true, none, true⟩
      else if msg.hasGuild && missingPermsDocx msg.perms then ⟨true, none, true⟩
      else ⟨true, some .docx, true⟩

/-- mp4_handler.handle_mp4, with the module-level processed-attachment id
set passed in explicitly.  The loop acts on the first video attachment. -/
def handle_mp4 (processedFiles : List Nat) (msg : Message) : HandlerRes :=
  if msg.authorIsSelf then ⟨false, none, false⟩
  else
    match msg.attachments.find? isVideoAttachment with
    | none => ⟨false, none, false⟩
    | some att =>
      if processedFiles.contains att.aid then ⟨true, none, true⟩
      else if att.size > MAX_FILE_SIZE_BYTES then ⟨true, none, true⟩
      else ⟨true, some .mp4, true⟩

/-- youtube_handler.handle_youtube.  The YouTube API lookup is an oracle:
ytApiOk says whether get_video_details returned data for the first match. -/
def handle_youtube (ytApiOk : Bool) (msg : Message) : HandlerRes :=
  if !msg.hasYoutubeLink then ⟨false, none, false⟩
  else if !ytApiOk then ⟨false, none, true⟩
  else ⟨true, some .youtube, true⟩

/-- referral_handler.handle_referral: only in the designated referral
channel, and only when a URL is present. -/
def handle_referral (referralChannelId : Nat) (msg : Message) : HandlerRes :=
  if msg.channelId != referralChannelId then ⟨false, none, false⟩
  else if !msg.hasUrl then ⟨false, none, false⟩
  else ⟨true, some .referral, true⟩

/-- The attachment branch of bot.on_message: image batch, then pdf, then
docx, each tried only if the previous returned unhandled. -/
def attachmentChainInvoked (processedPdf : List Nat) (msg : Message) : Option Kind :=
  if !msg.attachments.isEmpty then
    let ri := handle_image_batch msg
    if ri.handled then ri.invoked
    else
      let rp := handle_pdf processedPdf msg
      if rp.handled then rp.invoked
      else (handle_docx msg).invoked
  else none

/-- The text branch of bot.on_message: mp4, then youtube, then referral
(the last only when REFERRAL_CHANNEL_ID is configured). -/
def textChainInvoked (processedFiles : List Nat) (ytApiOk : Bool)
    (referralChannelId : Option Nat) (msg : Message) : Option Kind :=
  let rm := handle_mp4 processedFiles msg
  if rm.handled then rm.invoked
  else
    let ry := handle_youtube ytApiOk msg
    if ry.handled then ry.invoked
    else
      match referralChannelId with
      | some rc => (handle_referral rc msg).invoked
      | none => none

/-- bot.on_message: the list of workflows invoked for one incoming
message, in invocation order.  The attachment branch and the text branch
both run on every non-self message. -/
def on_message (processedPdf processedFiles : List Nat) (ytApiOk : Bool)
    (referralChannelId : Option Nat) (msg : Message) : List Kind :=
  if msg.authorIsSelf then []
  else
    (attachmentChainInvoked processedPdf msg).toList
      ++ (textChainInvoked processedFiles ytApiOk referralChannelId msg).toList

/- ### Dispatcher routing lemmas (claim C1) -/

theorem handle_image_batch_invoked_cases (msg : Message) :
    (handle_image_batch msg).invoked = none ∨
      (handle_image_batch msg).invoked = some Kind.imageBatch := by
  unfold handle_image_batch
  repeat' split
  all_goals try simp
  all_goals (split <;> simp)

theorem handle_pdf_invoked_cases (pp : List Nat) (msg : Message) :
    (handle_pdf pp msg).invoked = none ∨ (handle_pdf pp msg).invoked = some Kind.pdf := by
  unfold handle_pdf
  repeat' split
  all_goals simp

theorem handle_docx_invoked_cases (msg : Message) :
    (handle_docx msg).invoked = none ∨ (handle_docx msg).invoked = some Kind.docx := by
  unfold handle_docx
  repeat' split
  all_goals simp

theorem handle_mp4_invoked_cases (pf : List Nat) (msg : Message) :
    (handle_mp4 pf msg).invoked = none ∨ (handle_mp4 pf msg).invoked = some Kind.mp4 := by
  unfold handle_mp4
  repeat' split
  all_goals simp

theorem handle_youtube_invoked_cases (yt : Bool) (msg : Message) :
    (handle_youtube yt msg).invoked = none ∨
      (handle_youtube yt msg).invoked = some Kind.youtube := by
  unfold handle_youtube
  repeat' split
  all_goals simp

theorem handle_referral_invoked_cases (rc : Nat) (msg : Message) :
    (handle_referral rc msg).invoked = none ∨
      (handle_referral rc msg).invoked = some Kind.referral := by
  unfold handle_referral
  repeat' split
  all_goals simp

theorem attachmentChain_props (pp : List Nat) (msg : Message) :
    (∀ k, attachmentChainInvoked pp msg = some k →
      k = Kind.imageBatch ∨ k = Kind.pdf ∨ k = Kind.docx) ∧
    (attachmentChainInvoked pp msg = some Kind.pdf →
      (handle_image_batch msg).handled = false) ∧
    (attachmentChainInvoked pp msg = some Kind.docx →
      (handle_image_batch msg).handled = false ∧ (handle_pdf pp msg).handled = false) := by
  unfold attachmentChainInvoked
  by_cases he : msg.attachments.isEmpty <;>
    rcases handle_image_batch_invoked_cases msg with h1 | h1 <;>
    rcases handle_pdf_invoked_cases pp msg with h2 | h2 <;>
    rcases handle_docx_invoked_cases msg with h3 | h3 <;>
    by_cases hb1 : (handle_image_batch msg).handled <;>
    by_cases hb2 : (handle_pdf pp msg).handled <;>
    simp [he, h1, h2, h3, hb1, hb2]

theorem textChain_props (pf : List Nat) (yt : Bool) (rco : Option Nat)
    (msg : Message) :
    (∀ k, textChainInvoked pf yt rco msg = some k →
      k = Kind.mp4 ∨ k = Kind.youtube ∨ k = Kind.referral) ∧
    (textChainInvoked pf yt rco msg = some Kind.youtube →
      (handle_mp4 pf msg).handled = false) ∧
    (textChainInvoked pf yt rco msg = some Kind.referral →
      (handle_mp4 pf msg).handled = false ∧ (handle_youtube yt msg).handled = false) := by
  unfold textChainInvoked
  rcases rco with _ | rc
  · rcases handle_mp4_invoked_cases pf msg with h1 | h1 <;>
      rcases handle_youtube_invoked_cases yt msg with h2 | h2 <;>
      by_cases hb1 : (handle_mp4 pf msg).handled <;>
      by_cases hb2 : (handle_youtube yt msg).handled <;>
      simp [h1, h2, hb1, hb2]
  · rcases handle_mp4_invoked_cases pf msg with h1 | h1 <;>
      rcases handle_youtube_invoked_cases yt msg with h2 | h2 <;>
      rcases handle_referral_invoked_cases rc msg with h3 | h3 <;>
      by_cases hb1 : (handle_mp4 pf msg).handled <;>
      by_cases hb2 : (handle_youtube yt msg).handled <;>
      simp [h1, h2, h3, hb1, hb2]

/-- C1 (amended): the dispatcher invokes at most one workflow per branch,
in the priority order image batch, then pdf, then docx on the attachment
branch, and mp4, then youtube, then referral on the text branch; the two
branches run independently, so a message can start up to two workflows. -/
theorem c1_dispatcher_routing (processedPdf processedFiles : List Nat) (ytApiOk : Bool)
    (referralChannelId : Option Nat) (msg : Message) :
    (on_message processedPdf processedFiles ytApiOk referralChannelId msg).length ≤ 2 ∧
    (∀ k, attachmentChainInvoked processedPdf msg = some k →
      k = Kind.imageBatch ∨ k = Kind.pdf ∨ k = Kind.docx) ∧
    (∀ k, textChainInvoked processedFiles ytApiOk referralChannelId msg = some k →
      k = Kind.mp4 ∨ k = Kind.youtube ∨ k = Kind.referral) ∧
    (attachmentChainInvoked processedPdf msg = some Kind.pdf →
      (handle_image_batch msg).handled = false) ∧
    (attachmentChainInvoked processedPdf msg = some Kind.docx →
      (handle_image_batch msg).handled = false ∧
        (handle_pdf processedPdf msg).handled = false) ∧
    (textChainInvoked processedFiles ytApiOk referralChannelId msg = some Kind.youtube →
      (handle_mp4 processedFiles msg).handled = false) ∧
    (textChainInvoked processedFiles ytApiOk referralChannelId msg = some Kind.referral →
      (handle_mp4 processedFiles msg).handled = false ∧
        (handle_youtube ytApiOk msg).handled = false) := by
  obtain ⟨ha1, ha2, ha3⟩ := attachmentChain_props processedPdf msg
  obtain ⟨ht1, ht2, ht3⟩ :=
    textChain_props processedFiles ytApiOk referralChannelId msg
  refine ⟨?_, ha1, ht1, ha2, ha3, ht2, ht3⟩
  unfold on_message
  split
  · simp
  · rcases attachmentChainInvoked processedPdf msg with _ | a <;>
      rcases textChainInvoked processedFiles ytApiOk referralChannelId msg with _ | b <;>
      simp

/-- A concrete message carrying both a PDF attachment and a YouTube link:
uploaded to a channel with full permissions, nothing processed yet. -/
def msgPdfPlusYoutube : Message :=
  { mid := 5
    authorIsSelf := false
    attachments := [{ filename := "report.PDF", size := 1024, aid := 1 }]
    hasYoutubeLink := true
    hasUrl := true
    channelId := 42
    hasGuild := true
    perms := { sendMessages := true, attachFiles := true, createPublicThreads := true,
               manageThreads := true, manageMessages := true } }

/-- C1 counterexample: for the message above the dispatcher starts TWO
workflows (the pdf options view and the youtube options view), refuting
that at most one ContentWorkflow is invoked per message. -/
theorem c1_counterexample :
    on_message [] [] true (some 99) msgPdfPlusYoutube = [Kind.pdf, Kind.youtube] ∧
    ¬ (on_message [] [] true (some 99) msgPdfPlusYoutube).length ≤ 1 := by
  constructor
  · rfl
  · decide

/- ### Thread creation with retry (claim C2)

create_thread_with_retry is textually identical in pdf_handler,
docx_handler, image_handler and mp4_handler: a for-loop over
range(max_retries) with max_retries = 3 and retry_delay starting at 2 and
doubling after each permission failure that is not the last attempt. -/

/-- What one create_thread call does: succeed with a thread id, raise a
permission error (discord.Forbidden), or raise some other exception. -/
inductive CreateAttempt
  | success (tid : Nat)
  | forbidden
  | otherError
deriving DecidableEq, Repr

/-- Observable outcome of one create_thread_with_retry call: the returned
thread (none on failure), how many create_thread calls were made, and the
backoff sleeps performed between attempts, in order. -/
structure RetryTrace where
  result : Option Nat
  attemptsMade : Nat
  sleeps : List Nat
deriving DecidableEq, Repr

/-- The retry for-loop, with the remaining iteration count as fuel.
Mirrors: for attempt in range(max_retries) with max_retries = 3; on
Forbidden at the last attempt return None, otherwise sleep retry_delay
and double it; on any other exception return None at once. -/
def retryLoop (outcome : Nat → CreateAttempt) :
    Nat → Nat → Nat → List Nat → RetryTrace
  | 0, attempt, _, sleeps => ⟨none, attempt, sleeps⟩
  | fuel + 1, attempt, retry_delay, sleeps =>
    match outcome attempt with
    | .success t => ⟨some t, attempt + 1, sleeps⟩
    | .otherError => ⟨none, attempt + 1, sleeps⟩
    | .forbidden =>
      if attempt == 3 - 1 then ⟨none, attempt + 1, sleeps⟩
      else retryLoop outcome fuel (attempt + 1) (retry_delay * 2) (sleeps ++ [retry_delay])

/-- create_thread_with_retry: max_retries = 3, initial retry_delay = 2. -/
def create_thread_with_retry (outcome : Nat → CreateAttempt) : RetryTrace :=
  retryLoop outcome 3 0 2 []

/-- C2 counterexample: when every attempt hits a permission failure the
backoff sleeps actually performed are 2 and 4 only; the claimed delay
sequence 2, 4, 8 never occurs (the internal delay value reaches 8 but is
never slept, since the third attempt is the last). -/
theorem c2_counterexample :
    (create_thread_with_retry fun _ => .forbidden).sleeps = [2, 4] ∧
    (create_thread_with_retry fun _ => .forbidden).sleeps ≠ [2, 4, 8] ∧
    8 ∉ (create_thread_with_retry fun _ => .forbidden).sleeps := by
  refine ⟨rfl, ?_, ?_⟩ <;> decide

/-- C2 (amended): at most 3 creation attempts are ever made; the delays
slept between attempts are 2 then 4 (doubling, but the value 8 is never
slept); after three permission failures the caller gets none; a
non-permission error yields none immediately with no further sleeps. -/
theorem c2_retry_behavior (outcome : Nat → CreateAttempt) :
    (create_thread_with_retry outcome).attemptsMade ≤ 3 ∧
    ((create_thread_with_retry outcome).sleeps = [] ∨
      (create_thread_with_retry outcome).sleeps = [2] ∨
      (create_thread_with_retry outcome).sleeps = [2, 4]) ∧
    (outcome 0 = .forbidden → outcome 1 = .forbidden → outcome 2 = .forbidden →
      create_thread_with_retry outcome = ⟨none, 3, [2, 4]⟩) ∧
    (outcome 0 = .otherError → create_thread_with_retry outcome = ⟨none, 1, []⟩) ∧
    (outcome 0 = .forbidden → outcome 1 = .otherError →
      create_thread_with_retry outcome = ⟨none, 2, [2]⟩) ∧
    (∀ t, outcome 0 = .success t → create_thread_with_retry outcome = ⟨some t, 1, []⟩) := by
  rcases h0 : outcome 0 with t0 | _ | _ <;>
    rcases h1 : outcome 1 with t1 | _ | _ <;>
    rcases h2 : outcome 2 with t2 | _ | _ <;>
    simp [create_thread_with_retry, retryLoop, h0, h1, h2]

/-- C2 witness: the amended theorem applied to the all-forbidden oracle. -/
theorem c2_retry_behavior_witness :
    create_thread_with_retry (fun _ => .forbidden) = ⟨none, 3, [2, 4]⟩ :=
  (c2_retry_behavior fun _ => .forbidden).2.2.1 rfl rfl rfl

/- ### The options view: one activation only (claim C3)

The button callbacks are textually identical in PDFOptionsView,
DOCXOptionsView, ImageBatchView, LocationOptionsView and
YouTubeOptionsView: if self.button_clicked, defer (acknowledge) and
return; otherwise set the flag, disable the buttons, edit the message
and run the processing coroutine once. -/

/-- How a button press is answered: the accepting edit_message, or the
bare defer of an already-used view. -/
inductive BtnResp
  | accepted
  | deferred
deriving DecidableEq, Repr

/-- The view state: the button_clicked flag, the list of processing runs
started (each recorded with its use_thread argument), and the responses
given to the presses so far. -/
structure OptionsViewState where
  button_clicked : Bool
  processRuns : List Bool
  responses : List BtnResp
deriving DecidableEq, Repr

/-- The freshly constructed view: button_clicked = False. -/
def initialView : OptionsViewState := ⟨false, [], []⟩

/-- One press of either button; use_thread is True for Create Thread and
False for Post Here. -/
def pressButton (s : OptionsViewState) (use_thread : Bool) : OptionsViewState :=
  if s.button_clicked then { s with responses := s.responses ++ [.deferred] }
  else
    { button_clicked := true
      processRuns := s.processRuns ++ [use_thread]
      responses := s.responses ++ [.accepted] }

/-- A whole sequence of button presses against a fresh view. -/
def pressSequence (presses : List Bool) : OptionsViewState :=
  presses.foldl pressButton initialView

theorem pressButton_clicked_fixed (l : List Bool) (s : OptionsViewState)
    (h : s.button_clicked = true) :
    (l.foldl pressButton s).processRuns = s.processRuns ∧
      (l.foldl pressButton s).responses.length = s.responses.length + l.length := by
  induction l generalizing s with
  | nil => simp
  | cons p rest ih =>
    have hs : pressButton s p = { s with responses := s.responses ++ [.deferred] } := by
      simp [pressButton, h]
    obtain ⟨h1, h2⟩ := ih { s with responses := s.responses ++ [.deferred] } h
    constructor
    · simpa [hs] using h1
    · simp [hs, h2]
      omega

/-- C3 (confirmed): over any sequence of button presses, exactly the first
press is honored (the processing coroutine runs once, with the first
press's choice), every press is acknowledged, and the workflow never runs
twice — so repeated activation cannot duplicate delivered artifacts. -/
theorem c3_single_activation (presses : List Bool) :
    (pressSequence presses).processRuns = presses.take 1 ∧
    (pressSequence presses).responses.length = presses.length ∧
    (pressSequence presses).processRuns.length ≤ 1 := by
  rcases presses with _ | ⟨p, rest⟩
  · simp [pressSequence, initialView]
  · have hfirst : pressButton initialView p = ⟨true, [p], [.accepted]⟩ := by
      simp [pressButton, initialView]
    obtain ⟨h1, h2⟩ := pressButton_clicked_fixed rest ⟨true, [p], [.accepted]⟩ rfl
    refine ⟨?_, ?_, ?_⟩
    · simpa [pressSequence, hfirst] using h1
    · simp only [pressSequence, List.foldl_cons, hfirst]
      rw [h2]
      simp
      omega
    · simp [pressSequence, hfirst, h1]

/- ### Thread name truncation (claim C8)

Identical in pdf_handler.process_pdf, docx_handler.process_docx,
image_handler.process_images and mp4_handler.process_video:
if len(thread_name) > 100: thread_name = thread_name[:97] + "...".
Strings are modelled as their character sequences. -/

/-- The thread-name truncation applied before create_thread_with_retry. -/
def truncate_thread_name (name : List Char) : List Char :=
  if name.length > 100 then name.take 97 ++ ['.', '.', '.'] else name

/-- C8 (confirmed): a name longer than 100 characters is cut to its first
97 characters plus the 3-character marker, total exactly 100; any name of
at most 100 characters is used unchanged. -/
theorem c8_thread_name_truncation (name : List Char) :
    (name.length > 100 →
      truncate_thread_name name = name.take 97 ++ ['.', '.', '.'] ∧
      (truncate_thread_name name).length = 100) ∧
    (name.length ≤ 100 → truncate_thread_name name = name) := by
  constructor
  · intro h
    refine ⟨by simp [truncate_thread_name, h], ?_⟩
    simp [truncate_thread_name, h, List.length_take]
    omega
  · intro h
    simp [truncate_thread_name]
    omega

/-- C8 witness: a 101-character name is truncated to exactly 100
characters, and a 100-character name is left unchanged. -/
theorem c8_thread_name_truncation_witness :
    (truncate_thread_name (List.replicate 101 'a')).length = 100 ∧
    truncate_thread_name (List.replicate 100 'a') = List.replicate 100 'a' :=
  ⟨((c8_thread_name_truncation (List.replicate 101 'a')).1 (by simp)).2,
    (c8_thread_name_truncation (List.replicate 100 'a')).2 (by simp)⟩

/- ### Artifact delivery order (claim C4)

pdf_handler.convert_and_upload_pdf walks the document with
enumerate(doc, start=1) and skips page i when i <= start_idx and
use_thread, where start_idx is 1 exactly when use_thread and the target
is a Thread; pdf_handler.process_pdf sends page 1 separately to a newly
created thread before that loop.  docx_handler.post_images sends
images[0] first when posting to a thread, then the slice
images[start_idx:] enumerated from start_idx + 1.  Delivery is modelled
by the list of page ordinals sent, with every send succeeding. -/

/-- Page ordinals sent by the main loop of convert_and_upload_pdf. -/
def pdfLoopPages (k : Nat) (use_thread targetIsThread : Bool) : List Nat :=
  let start_idx := if use_thread && targetIsThread then 1 else 0
  (List.range' 1 k).filter fun i => !(decide (i ≤ start_idx) && use_thread)

/-- The separate first-page send of process_pdf (get_first_page succeeds
exactly when the document has a page at all). -/
def pdfFirstPageSend (k : Nat) (use_thread targetIsThread : Bool) : List Nat :=
  if use_thread && targetIsThread && decide (1 ≤ k) then [1] else []

/-- Everything process_pdf delivers to the resolved target, in order. -/
def pdfDelivered (k : Nat) (use_thread targetIsThread : Bool) : List Nat :=
  pdfFirstPageSend k use_thread targetIsThread ++ pdfLoopPages k use_thread targetIsThread

/-- Page ordinals sent by the slice loop of docx_handler.post_images. -/
def docxLoopPages (k : Nat) (use_thread targetIsThread : Bool) : List Nat :=
  (List.range' 1 k).drop (if use_thread && targetIsThread then 1 else 0)

/-- The leading images[0] send of post_images (sent when posting to a
thread and the image list is nonempty). -/
def docxFirstSend (k : Nat) (use_thread targetIsThread : Bool) : List Nat :=
  if use_thread && targetIsThread && decide (1 ≤ k) then [1] else []

/-- Everything docx_handler.post_images delivers, in order. -/
def docxDelivered (k : Nat) (use_thread targetIsThread : Bool) : List Nat :=
  docxFirstSend k use_thread targetIsThread ++ docxLoopPages k use_thread targetIsThread

theorem filter_range_two (m : Nat) :
    (List.range' 2 m).filter (fun i => !decide (i ≤ 1)) = List.range' 2 m := by
  apply List.filter_eq_self.mpr
  intro a ha
  have h := List.mem_range'_1.mp ha
  have hd : decide (a ≤ 1) = false := by
    simp
    omega
  simp [hd]

theorem filter_range_gt_one (m : Nat) :
    (List.range' 1 (m + 1)).filter (fun i => !decide (i ≤ 1)) = List.range' 2 m := by
  rw [List.range'_succ, List.filter_cons]
  have hd : (!decide ((1 : Nat) ≤ 1)) = false := by simp
  rw [hd]
  simpa using filter_range_two m


/-- C4 (confirmed): for a conversion producing k pages, the sequence
delivered to the resolved target is exactly 1, 2, ..., k — each ordinal
once, in increasing order, with no duplicates and no gaps — in every
combination of user choice and resolved target, for both the PDF loop and
the DOCX post_images loop. -/
theorem c4_delivery_order (k : Nat) (use_thread targetIsThread : Bool) :
    pdfDelivered k use_thread targetIsThread = List.range' 1 k ∧
    docxDelivered k use_thread targetIsThread = List.range' 1 k := by
  rcases use_thread with _ | _ <;> rcases targetIsThread with _ | _
  · refine ⟨?_, by simp [docxDelivered, docxFirstSend, docxLoopPages]⟩
    simp [pdfDelivered, pdfFirstPageSend, pdfLoopPages]
    try intro a h1 h2
    try omega
  · refine ⟨?_, by simp [docxDelivered, docxFirstSend, docxLoopPages]⟩
    simp [pdfDelivered, pdfFirstPageSend, pdfLoopPages]
    try intro a h1 h2
    try omega
  · refine ⟨?_, by simp [docxDelivered, docxFirstSend, docxLoopPages]⟩
    simp [pdfDelivered, pdfFirstPageSend, pdfLoopPages]
    try intro a h1 h2
    try omega
  · rcases k with _ | m
    · exact ⟨by simp [pdfDelivered, pdfFirstPageSend, pdfLoopPages],
        by simp [docxDelivered, docxFirstSend, docxLoopPages]⟩
    · constructor
      · show pdfFirstPageSend (m + 1) true true ++ pdfLoopPages (m + 1) true true = _
        have h1 : pdfFirstPageSend (m + 1) true true = [1] := by
          simp [pdfFirstPageSend]
        have h2 : pdfLoopPages (m + 1) true true = List.range' 2 m := by
          have hpred : (fun i => !(decide (i ≤ if true && true then 1 else 0) && true))
              = fun i : Nat => !decide (i ≤ 1) := by
            funext i
            simp
          show (List.range' 1 (m + 1)).filter
              (fun i => !(decide (i ≤ if true && true then 1 else 0) && true))
              = List.range' 2 m
          rw [hpred, filter_range_gt_one]
        rw [h1, h2, List.range'_succ]
        rfl
      · have h1 : docxFirstSend (m + 1) true true = [1] := by
          simp [docxFirstSend]
        have h2 : docxLoopPages (m + 1) true true = List.range' 2 m := by
          unfold docxLoopPages
          rw [List.range'_succ]
          simp
        unfold docxDelivered
        rw [h1, h2, List.range'_succ]
        rfl

/- ### Workflow runs: target resolution, status message and cleanup
(claims C5 and C6)

process_pdf (pdf_handler), process_docx (docx_handler) and process_video
(mp4_handler) are modelled by their observable outcomes: the resolved
delivery target, the status-message contents over the run, whether the
created thread was deleted, and the terminal state.  The external calls
(thread creation, conversion, uploads) are parameters. -/

/-- How the create_thread_with_retry call ended as seen by the caller:
a thread, a None return, or an exception escaping it. -/
inductive ThreadCreateRes
  | created (t : Nat)
  | returnedNone
  | raisedErr
deriving DecidableEq, Repr

/-- How the conversion/delivery phase of process_pdf ended: everything
succeeded, convert_and_upload_pdf reported failure (or another generic
exception was raised), or the asyncio.wait_for 300-second ceiling fired. -/
inductive ConvOutcome
  | convOk
  | convFail
  | convTimeout
deriving DecidableEq, Repr

/-- Terminal state of a workflow run. -/
inductive FinalState
  | done
  | failed
deriving DecidableEq, Repr

/-- The distinct contents the processing status message is edited to. -/
inductive StatusMsg
  | threadMention (t : Nat)
  | fallbackWarn
  | errorGeneric
  | errorTimeout
  | processingFile
  | processingVideo
  | videoProcessed
  | createdThreadMsg
  | uploading
deriving DecidableEq, Repr

/-- Final disposition of the status message: edited to some content, or
deleted. -/
inductive StatusFinal
  | editedTo (m : StatusMsg)
  | deletedMsg
deriving DecidableEq, Repr

/-- Observable outcome of one process_pdf call. -/
structure PdfRun where
  finalState : FinalState
  targetThread : Option Nat
  threadDeleted : Bool
  statusFinal : StatusFinal
deriving DecidableEq, Repr

/-- pdf_handler.PDFOptionsView.process_pdf: resolve the target (with
fallback to the channel when thread creation returns None or raises),
deliver, then either finish (editing the status to final_message, or
deleting it when final_message is None) or fail — and only the generic
exception branch deletes an already created thread. -/
def process_pdf_run (use_thread : Bool) (res : ThreadCreateRes)
    (conv : ConvOutcome) : PdfRun :=
  let resolved : Option Nat × Option StatusMsg :=
    if use_thread then
      match res with
      | .created t => (some t, some (.threadMention t))
      | _ => (none, some .fallbackWarn)
    else (none, none)
  match conv with
  | .convOk =>
    { finalState := .done
      targetThread := resolved.1
      threadDeleted := false
      statusFinal :=
        match resolved.2 with
        | some m => .editedTo m
        | none => .deletedMsg }
  | .convFail =>
    { finalState := .failed
      targetThread := resolved.1
      threadDeleted := use_thread && resolved.1.isSome
      statusFinal := .editedTo .errorGeneric }
  | .convTimeout =>
    { finalState := .failed
      targetThread := resolved.1
      threadDeleted := false
      statusFinal := .editedTo .errorTimeout }

/-- Observable outcome of one process_docx call. -/
structure DocxRun where
  finalState : FinalState
  threadCreated : Option Nat
  threadDeleted : Bool
deriving DecidableEq, Repr

/-- docx_handler.DOCXOptionsView.process_docx: conversion happens before
the target is resolved, so an empty/failed conversion fails with no
thread in existence; a post_images failure after thread creation reaches
the generic handler, which deletes the thread. -/
def process_docx_run (use_thread : Bool) (convNonempty : Bool)
    (res : ThreadCreateRes) (postOk : Bool) : DocxRun :=
  if !convNonempty then
    { finalState := .failed, threadCreated := none, threadDeleted := false }
  else
    let target : Option Nat :=
      if use_thread then
        match res with
        | .created t => some t
        | _ => none
      else none
    if postOk then
      { finalState := .done, threadCreated := target, threadDeleted := false }
    else
      { finalState := .failed, threadCreated := target,
        threadDeleted := use_thread && target.isSome }

/-- Observable outcome of one process_video call. -/
structure Mp4Run where
  targetIsChannel : Bool
  statusEdits : List StatusMsg
  statusFinal : StatusFinal
deriving DecidableEq, Repr

/-- mp4_handler.LocationOptionsView.process_video on the path where the
conversion succeeds, the processed file fits the direct-upload ceiling
and the upload succeeds: the successive status-message edits, and the
final edit to the thread mention (thread_ref set) or deletion of the
status message (thread_ref unset). -/
def process_video_run_ok (use_thread : Bool) (res : ThreadCreateRes) : Mp4Run :=
  let baseEdits : List StatusMsg := [.processingFile, .processingVideo, .videoProcessed]
  if use_thread then
    match res with
    | .created t =>
      { targetIsChannel := false
        statusEdits := baseEdits ++ [.createdThreadMsg, .uploading]
        statusFinal := .editedTo (.threadMention t) }
    | _ =>
      { targetIsChannel := true
        statusEdits := baseEdits ++ [.fallbackWarn, .uploading]
        statusFinal := .deletedMsg }
  else
    { targetIsChannel := true
      statusEdits := baseEdits ++ [.uploading]
      statusFinal := .deletedMsg }

/-- C5 counterexample: in the MP4 workflow, when thread creation returns
None and the run then succeeds, the status message finally gets DELETED —
its final disposition does not show the fallback warning (the warning was
only an intermediate edit), refuting the claim that the final status
message contains the fallback warning. -/
theorem c5_counterexample :
    (process_video_run_ok true .returnedNone).statusFinal = .deletedMsg ∧
    (process_video_run_ok true .returnedNone).statusFinal ≠ .editedTo .fallbackWarn ∧
    (process_video_run_ok true .returnedNone).statusEdits.getLast? =
      some .uploading := by
  refine ⟨rfl, ?_, rfl⟩
  decide

/-- C5 (amended): whenever thread creation returns None or raises, the
delivery target is the original channel and no state of the status
message ever mentions a thread; in the PDF workflow the final status of a
successful run is the fallback warning, while the MP4 workflow shows the
warning as an intermediate edit and finally deletes the status message on
success. -/
theorem c5_fallback_behavior (res : ThreadCreateRes) (conv : ConvOutcome)
    (hres : ∀ t, res ≠ .created t) :
    (process_pdf_run true res conv).targetThread = none ∧
    (∀ t, (process_pdf_run true res conv).statusFinal ≠ .editedTo (.threadMention t)) ∧
    (conv = .convOk →
      (process_pdf_run true res conv).statusFinal = .editedTo .fallbackWarn) ∧
    (process_video_run_ok true res).targetIsChannel = true ∧
    StatusMsg.fallbackWarn ∈ (process_video_run_ok true res).statusEdits ∧
    (∀ t, StatusMsg.threadMention t ∉ (process_video_run_ok true res).statusEdits) ∧
    (∀ t, (process_video_run_ok true res).statusFinal ≠ .editedTo (.threadMention t)) := by
  rcases res with t | _ | _
  · exact absurd rfl (hres t)
  · rcases conv with _ | _ | _ <;>
      simp [process_pdf_run, process_video_run_ok]
  · rcases conv with _ | _ | _ <;>
      simp [process_pdf_run, process_video_run_ok]

/-- C5 witness: the amended theorem applied to a run where thread
creation returned None and conversion succeeded. -/
theorem c5_fallback_behavior_witness :
    (process_pdf_run true .returnedNone .convOk).targetThread = none ∧
    (process_pdf_run true .returnedNone .convOk).statusFinal =
      .editedTo .fallbackWarn := by
  have h := c5_fallback_behavior .returnedNone .convOk (fun t h => by cases h)
  exact ⟨h.1, h.2.2.1 rfl⟩

/-- C6 counterexample: a PDF run where the user chose Create Thread, the
thread was created, and the conversion then timed out: the run ends
failed but the thread is NOT deleted (only the generic-exception branch
deletes it; the asyncio.TimeoutError branch does not), leaving an
orphaned thread. -/
theorem c6_counterexample :
    (process_pdf_run true (.created 7) .convTimeout).finalState = .failed ∧
    (process_pdf_run true (.created 7) .convTimeout).targetThread = some 7 ∧
    (process_pdf_run true (.created 7) .convTimeout).threadDeleted = false := by
  refine ⟨rfl, rfl, rfl⟩

/-- C6 (amended): in the PDF and DOCX workflows a generic conversion or
delivery failure on the thread path deletes the already created thread
before the terminal failed state; a DOCX conversion failure happens
before any thread exists; but a PDF conversion timeout does NOT delete
the created thread. -/
theorem c6_cleanup_behavior :
    (∀ t, (process_pdf_run true (.created t) .convFail).finalState = .failed ∧
      (process_pdf_run true (.created t) .convFail).threadDeleted = true) ∧
    (∀ t, (process_docx_run true true (.created t) false).finalState = .failed ∧
      (process_docx_run true true (.created t) false).threadDeleted = true) ∧
    (∀ u res postOk, (process_docx_run u false res postOk).finalState = .failed ∧
      (process_docx_run u false res postOk).threadCreated = none) ∧
    (∀ t, (process_pdf_run true (.created t) .convTimeout).finalState = .failed ∧
      (process_pdf_run true (.created t) .convTimeout).threadDeleted = false) := by
  refine ⟨fun t => ⟨rfl, rfl⟩, fun t => ⟨rfl, rfl⟩, ?_, fun t => ⟨rfl, rfl⟩⟩
  intro u res postOk
  exact ⟨rfl, rfl⟩

/- ### Delivery errors: rate limits and aborts (claim C7)

convert_and_upload_pdf wraps each target.send in a try/except: an
HTTPException with code 429 sleeps e.retry_after and resends the same
page once (the resend unprotected, so any failure of it propagates); any
other exception propagates.  A propagated exception reaches the outer
handler, which returns False — no further page is sent.
handle_large_video's upload loop instead catches any HTTPException per
segment, posts a failure notice, and continues with the next segment. -/

/-- What one send attempt returns. -/
inductive SendRes
  | ok
  | rateLimited (retryAfter : Nat)
  | hardError
deriving DecidableEq, Repr

/-- Observable delivery events: a send attempt of a page (attempt 0 or
the single retry 1), or a sleep for the server-specified cooldown. -/
inductive DelivEvent
  | send (page attempt : Nat)
  | wait (secs : Nat)
deriving DecidableEq, Repr

/-- Delivery of one page: events performed and whether the loop may
continue (false = an exception propagated to the outer handler). -/
def deliverPage (o : Nat → Nat → SendRes) (p : Nat) : List DelivEvent × Bool :=
  match o p 0 with
  | .ok => ([.send p 0], true)
  | .hardError => ([.send p 0], false)
  | .rateLimited r =>
    match o p 1 with
    | .ok => ([.send p 0, .wait r, .send p 1], true)
    | _ => ([.send p 0, .wait r, .send p 1], false)

/-- The page loop of convert_and_upload_pdf: stops at the first page
whose delivery raises. -/
def deliverPages (o : Nat → Nat → SendRes) : List Nat → List DelivEvent × Bool
  | [] => ([], true)
  | p :: ps =>
    let d := deliverPage o p
    if d.2 then
      let rest := deliverPages o ps
      (d.1 ++ rest.1, rest.2)
    else (d.1, false)

/-- Upload events of handle_large_video's segment loop. -/
inductive SegEvent
  | segSend (i : Nat)
  | segFailNotice (i : Nat)
deriving DecidableEq, Repr

/-- handle_large_video's upload loop: every segment is attempted exactly
once; an HTTPException posts a failure notice and the loop continues;
successful_uploads counts the successes. -/
def uploadSegments (ok : Nat → Bool) : List Nat → List SegEvent × Nat
  | [] => ([], 0)
  | i :: rest =>
    let r := uploadSegments ok rest
    if ok i then (.segSend i :: r.1, r.2 + 1)
    else (.segSend i :: .segFailNotice i :: r.1, r.2)

/-- C7 counterexample: in the MP4 segment loop an upload failure of
segment 0 (for example a 429 rate limit) is NOT retried — segment 0 is
attempted exactly once — and the remaining segments are NOT aborted:
segments 1 and 2 are still sent, refuting both halves of the claim for
the cited mp4 path. -/
theorem c7_counterexample :
    (uploadSegments (fun i => i != 0) [0, 1, 2]).1 =
      [.segSend 0, .segFailNotice 0, .segSend 1, .segSend 2] ∧
    ((uploadSegments (fun i => i != 0) [0, 1, 2]).1.count (.segSend 0)) = 1 ∧
    SegEvent.segSend 1 ∈ (uploadSegments (fun i => i != 0) [0, 1, 2]).1 ∧
    (uploadSegments (fun i => i != 0) [0, 1, 2]).2 = 2 := by
  refine ⟨rfl, ?_, ?_, rfl⟩ <;> decide

/-- C7 (amended): in the PDF delivery loop a rate-limited send is retried
exactly once after waiting the server-specified cooldown, any other send
error stops delivery immediately — no later page is attempted and the
run fails — while the MP4 segment loop never retries and never aborts: it
attempts every segment exactly once, posting a notice for each failure. -/
theorem c7_delivery_error_behavior :
    (∀ (o : Nat → Nat → SendRes) (p r : Nat), o p 0 = .rateLimited r →
      (deliverPage o p).1 = [.send p 0, .wait r, .send p 1]) ∧
    (∀ (o : Nat → Nat → SendRes) (p : Nat), o p 0 = .hardError →
      deliverPage o p = ([.send p 0], false)) ∧
    (∀ (o : Nat → Nat → SendRes) (p : Nat) (ps : List Nat),
      (deliverPage o p).2 = false →
      deliverPages o (p :: ps) = ((deliverPage o p).1, false)) ∧
    (∀ (u : Bool) (res : ThreadCreateRes),
      (process_pdf_run u res .convFail).finalState = .failed) ∧
    (∀ (ok : Nat → Bool) (segs : List Nat),
      (uploadSegments ok segs).1 =
        (segs.map fun i =>
          if ok i then [SegEvent.segSend i] else [.segSend i, .segFailNotice i]).flatten ∧
      (uploadSegments ok segs).2 = (segs.filter ok).length) := by
  refine ⟨?_, ?_, ?_, ?_, ?_⟩
  · intro o p r h
    rcases h1 : o p 1 with _ | r1 | _ <;> simp [deliverPage, h, h1]
  · intro o p h
    simp [deliverPage, h]
  · intro o p ps h
    simp [deliverPages, h]
  · intro u res
    rcases u with _ | _ <;> rcases res with t | _ | _ <;> simp [process_pdf_run]
  · intro ok segs
    induction segs with
    | nil => simp [uploadSegments]
    | cons i rest ih =>
      by_cases hi : ok i <;> simp [uploadSegments, hi, ih]

/-- C7 witness: the amended theorem applied to a concrete oracle where
page 3 is rate limited with a 9-second cooldown and then succeeds. -/
theorem c7_delivery_error_behavior_witness :
    (deliverPage (fun _ a => if a == 0 then .rateLimited 9 else .ok) 3).1 =
      [.send 3 0, .wait 9, .send 3 1] :=
  c7_delivery_error_behavior.1 (fun _ a => if a == 0 then .rateLimited 9 else .ok) 3 9 rfl

/- ### Website metadata fetch (claim C9)

referral_handler.get_website_metadata: standard request, then mobile
emulation (merging missing fields), then Selenium (replacing wholesale),
then a guaranteed fallback record.  Each fetch returns Optional[str] html
(None on any exception); extract_metadata_from_html returns None for
falsy html and otherwise a parsed record or None — the parse itself is an
oracle.  Python truthiness of the string fields: None and the empty
string are falsy. -/

/-- The metadata record: the error field models the presence of the
optional error key of the Python dict. -/
structure Metadata where
  title : Option String
  description : Option String
  image : Option String
  favicon : Option String
  domain : String
  url : String
  error : Option String
deriving DecidableEq, Repr

/-- Python truthiness of an optional string: None and the empty string
are falsy. -/
def pyTruthyOptStr : Option String → Bool
  | none => false
  | some s => !(s == "")

/-- Python truthiness of the html variable (an Optional[str]). -/
def pyTruthyHtml : Option String → Bool
  | none => false
  | some s => !(s == "")

/-- metadata.get with a truthiness test, guarded for metadata = None. -/
def mdTitleTruthy : Option Metadata → Bool
  | none => false
  | some m => pyTruthyOptStr m.title

/-- extract_metadata_from_html: None for falsy html, otherwise whatever
BeautifulSoup parsing yields (the oracle). -/
def extract_metadata_from_html (extractOracle : String → Option Metadata)
    (html : Option String) : Option Metadata :=
  match html with
  | none => none
  | some h => if h == "" then none else extractOracle h

/-- The mobile-emulation merge: missing (falsy) title, description and
image are filled from the mobile record. -/
def mergeFieldsMobile (base mob : Metadata) : Metadata :=
  { base with
    title := if !pyTruthyOptStr base.title && pyTruthyOptStr mob.title
      then mob.title else base.title
    description :=
      if !pyTruthyOptStr base.description && pyTruthyOptStr mob.description
      then mob.description else base.description
    image := if !pyTruthyOptStr base.image && pyTruthyOptStr mob.image
      then mob.image else base.image }

/-- Infix search on character lists (Python substring containment). -/
def listHasInfix : List Char → List Char → Bool
  | sub, [] => sub.isEmpty
  | sub, c :: rest => sub.isPrefixOf (c :: rest) || listHasInfix sub rest

/-- Python substring test: sub in s. -/
def strContains (s sub : String) : Bool := listHasInfix sub.toList s.toList

/-- The guaranteed fallback record built when every fetch method failed,
with the special case for blofin.com domains. -/
def fallback_metadata (domain url : String) : Metadata :=
  if strContains domain "blofin.com" then
    { title := some "Blofin - Crypto Exchange Platform"
      description := some "Blofin is a cryptocurrency exchange platform. This link appears to be a referral link. The website restricts automated access, but you can click to visit directly."
      image := none
      favicon := none
      domain := domain
      url := url
      error := some "403 Forbidden" }
  else
    { title := some ("Visit " ++ domain)
      description := some "This website restricts automated access. Click the link to visit directly."
      image := none
      favicon := none
      domain := domain
      url := url
      error := some "403 Forbidden" }

/-- The final guard of get_website_metadata: substitute the fallback when
metadata is missing or has a falsy title. -/
def finalize_metadata (domain url : String) (md : Option Metadata) : Metadata :=
  match md with
  | some m => if pyTruthyOptStr m.title then m else fallback_metadata domain url
  | none => fallback_metadata domain url

/-- get_website_metadata, over the three fetched html values (None on
fetch failure) and the parse oracle.  The domain argument stands for
urlparse(url).netloc. -/
def get_website_metadata (domain url : String)
    (standardHtml mobileHtml seleniumHtml : Option String)
    (extractOracle : String → Option Metadata)
    (seleniumAvailable : Bool) : Metadata :=
  let html0 := standardHtml
  let md0 := extract_metadata_from_html extractOracle html0
  let step2 : Option String × Option Metadata :=
    if !pyTruthyHtml html0 || md0.isNone || !mdTitleTruthy md0 then
      let mm := extract_metadata_from_html extractOracle mobileHtml
      let md1 :=
        match mm with
        | none => md0
        | some mob =>
          match md0 with
          | none => some mob
          | some base => some (mergeFieldsMobile base mob)
      (mobileHtml, md1)
    else (html0, md0)
  let md2 : Option Metadata :=
    if (!pyTruthyHtml step2.1 || step2.2.isNone || !mdTitleTruthy step2.2)
        && seleniumAvailable then
      match extract_metadata_from_html extractOracle seleniumHtml with
      | some sm => some sm
      | none => step2.2
    else step2.2
  finalize_metadata domain url md2

/-- The embed fields built by create_referral_embed that the claim is
about: the title and description use Python or-defaults, the footer
appends the error tag to the domain, the color flags the error key. -/
structure Embed where
  title : String
  description : String
  url : String
  isErrorColor : Bool
  footerText : String
deriving DecidableEq, Repr

/-- referral_handler.create_referral_embed. -/
def create_referral_embed (url : String) (m : Metadata) : Embed :=
  { title :=
      match m.title with
      | some s => if s == "" then "Visit Website" else s
      | none => "Visit Website"
    description :=
      match m.description with
      | some s => if s == "" then "No description available" else s
      | none => "No description available"
    url := url
    isErrorColor := m.error.isSome
    footerText :=
      m.domain ++
        (match m.error with
          | some e => " • " ++ e
          | none => "") }

theorem fallback_metadata_title_truthy (domain url : String) :
    pyTruthyOptStr (fallback_metadata domain url).title = true := by
  unfold fallback_metadata
  split
  · rfl
  · show (!("Visit " ++ domain == "")) = true
    have hne : ("Visit " ++ domain) ≠ "" := by
      intro h
      have hlen := congrArg String.length h
      rw [String.length_append] at hlen
      have h6 : ("Visit " : String).length = 6 := rfl
      have h0 : ("" : String).length = 0 := rfl
      rw [h6, h0] at hlen
      omega
    have hb : (("Visit " ++ domain) == "") = false := beq_eq_false_iff_ne.mpr hne
    rw [hb]
    rfl

theorem fallback_metadata_fields (domain url : String) :
    (fallback_metadata domain url).domain = domain ∧
    (fallback_metadata domain url).url = url ∧
    (fallback_metadata domain url).error = some "403 Forbidden" := by
  unfold fallback_metadata
  split <;> exact ⟨rfl, rfl, rfl⟩

theorem finalize_metadata_title_truthy (domain url : String) (md : Option Metadata) :
    pyTruthyOptStr (finalize_metadata domain url md).title = true := by
  unfold finalize_metadata
  rcases md with _ | m
  · exact fallback_metadata_title_truthy domain url
  · by_cases h : pyTruthyOptStr m.title = true
    · simp [h]
    · simp [h, fallback_metadata_title_truthy domain url]

/-- C9 (confirmed): get_website_metadata always returns a record with a
truthy (non-empty) title; when every fetch strategy fails (all three html
results are None) it returns exactly the fallback record, which carries
the domain, the url and the 403 Forbidden error tag; and the embed built
from any metadata record never has an empty title. -/
theorem c9_metadata_fallback :
    (∀ (domain url : String) (s m sel : Option String)
        (eo : String → Option Metadata) (sa : Bool),
      pyTruthyOptStr (get_website_metadata domain url s m sel eo sa).title = true) ∧
    (∀ (domain url : String) (eo : String → Option Metadata) (sa : Bool),
      get_website_metadata domain url none none none eo sa =
        fallback_metadata domain url ∧
      (get_website_metadata domain url none none none eo sa).domain = domain ∧
      (get_website_metadata domain url none none none eo sa).error =
        some "403 Forbidden" ∧
      pyTruthyOptStr (get_website_metadata domain url none none none eo sa).title
        = true) ∧
    (∀ (url : String) (m : Metadata), (create_referral_embed url m).title ≠ "") := by
  refine ⟨?_, ?_, ?_⟩
  · intro domain url s m sel eo sa
    exact finalize_metadata_title_truthy domain url _
  · intro domain url eo sa
    have h : get_website_metadata domain url none none none eo sa =
        fallback_metadata domain url := by
      rcases sa with _ | _ <;> rfl
    refine ⟨h, ?_, ?_, ?_⟩
    · rw [h]
      exact (fallback_metadata_fields domain url).1
    · rw [h]
      exact (fallback_metadata_fields domain url).2.2
    · rw [h]
      exact fallback_metadata_title_truthy domain url
  · intro url m
    have hshape : (create_referral_embed url m).title =
        match m.title with
        | some s => if s == "" then "Visit Website" else s
        | none => "Visit Website" := rfl
    rw [hshape]
    cases htm : m.title with
    | none => decide
    | some t =>
      by_cases h : t = ""
      · simp [h]
      · have hb : (t == "") = false := beq_eq_false_iff_ne.mpr h
        simp [hb, h]

/- ### Image batch minimum (claim C10) -/

/-- A message with a single image attachment. -/
def msgSingleImage : Message :=
  { mid := 11
    authorIsSelf := false
    attachments := [{ filename := "photo.PNG", size := 2048, aid := 3 }]
    hasYoutubeLink := false
    hasUrl := false
    channelId := 42
    hasGuild := true
    perms := { sendMessages := true, attachFiles := true, createPublicThreads := true,
               manageThreads := true, manageMessages := true } }

/-- C10 (confirmed): with fewer than 2 image attachments (including the
single-image case) handle_image_batch returns False without starting a
workflow and without sending anything. -/
theorem c10_image_batch_minimum (msg : Message)
    (h : (msg.attachments.filter isImageAttachment).length < 2) :
    handle_image_batch msg = ⟨false, none, false⟩ := by
  unfold handle_image_batch
  by_cases he : msg.attachments.isEmpty
  · simp [he]
  · simp [he, h]

/-- C10 witness: a message carrying exactly one image attachment is left
alone: not handled, no prompt, nothing sent. -/
theorem c10_image_batch_minimum_witness :
    handle_image_batch msgSingleImage = ⟨false, none, false⟩ :=
  c10_image_batch_minimum msgSingleImage (by decide)

end GridZero
